import Mathlib

/-!
Verification of the ENSPURNA signalling-server store and resource router.

The repository ships two variants of the same WebRTC signalling relay:

* `signalling_server_builtin.py` — a stdlib-only HTTP server.  Its routing,
  store and response shaping are embedded below in namespace `Builtin`.
* `signalling_server.py` — a FastAPI application.  Its route handlers are
  embedded below in namespace `Fastapi`.

Python dictionaries (`offers`, `answers`, `_offers`, `_answers`) are embedded
as partial maps `String → Option String`.  `json.dumps` of a string-keyed
dictionary is kept as the association list handed to it (serialisation is an
injective external library call on these inputs), so a response body is either
absent, raw text, or a JSON object given by its field list.
-/

namespace Enspurna

/-- HTTP methods the servers dispatch on. -/
inductive Method where
  | GET
  | PUT
  | DELETE
  | OPTIONS
deriving Repr, DecidableEq

/-- A response body: absent (204-style), raw text written to the wire, or a
JSON object given as the key/value list passed to the serialiser. -/
inductive BodyData where
  | empty
  | text (s : String)
  | jsonObj (fields : List (String × String))
deriving Repr, DecidableEq

/-- An HTTP response: status code, Content-Type, headers in send order
(the CORS block followed by any extra headers), and the body. -/
structure Response where
  status : Nat
  contentType : String
  headers : List (String × String)
  body : BodyData
deriving Repr, DecidableEq

/-- A Python `dict[str, str]` as a partial map. -/
def Dict : Type := String → Option String

/-- `d[k] = v` — unconditional overwrite. -/
def mapSet (d : Dict) (k v : String) : Dict :=
  fun q => if q = k then some v else d q

/-- `d.get(k)` / `k in d`. -/
def mapGet (d : Dict) (k : String) : Option String := d k

/-- `d.pop(k, None)` — the returned value and the dictionary afterwards. -/
def mapPop (d : Dict) (k : String) : Option String × Dict :=
  (d k, fun q => if q = k then none else d q)

/-- The empty dictionary. -/
def mapEmpty : Dict := fun _ => none

namespace Builtin

/-- `PREFIX = "sig"` (signalling_server_builtin.py line 23). -/
def PREFIX : String := "sig"

/-- `CORS_HEADERS` (lines 53-58), in definition order. -/
def CORS_HEADERS : List (String × String) :=
  [("Access-Control-Allow-Origin", "*"),
   ("Access-Control-Allow-Credentials", "true"),
   ("Access-Control-Allow-Headers", "*"),
   ("Access-Control-Allow-Methods", "GET, PUT, DELETE, OPTIONS")]

/-- Default Content-Type of `_set_headers`. -/
def plainCT : String := "text/plain; charset=utf-8"

/-- Content-Type used by `_write_detail` and `_health`. -/
def jsonCT : String := "application/json; charset=utf-8"

/-- `_set_headers` followed by an optional body write: every response carries
the CORS block, then the extra headers. -/
def mkResponse (status : Nat) (ct : String) (extra : List (String × String))
    (body : BodyData) : Response :=
  { status := status, contentType := ct,
    headers := CORS_HEADERS ++ extra, body := body }

/-- `_write_detail(status, message, headers=extra)` (lines 76-84): a JSON
body with a single `detail` field. -/
def writeDetail (status : Nat) (message : String)
    (extra : List (String × String)) : Response :=
  mkResponse status jsonCT extra (BodyData.jsonObj [("detail", message)])

/-- Everything strictly before the first occurrence of `c`. -/
def beforeChar (c : Char) (cs : List Char) : List Char :=
  cs.takeWhile (fun ch => ch ≠ c)

/-- `urlparse(raw_path).path`: the fragment (first `#` onwards) is cut first,
then the query (first `?` onwards). -/
def urlPath (raw : String) : List Char :=
  beforeChar '?' (beforeChar '#' raw.data)

/-- Python `str.split(sep)` for a single-character separator. -/
def splitOnChar (c : Char) : List Char → List (List Char)
  | [] => [[]]
  | ch :: rest =>
    if ch = c then [] :: splitOnChar c rest
    else
      match splitOnChar c rest with
      | [] => [[ch]]
      | s :: ss => (ch :: s) :: ss

/-- `_path_segments` (lines 30-32): strip query/fragment, split on `/`,
discard empty segments. -/
def pathSegments (raw : String) : List String :=
  ((splitOnChar '/' (urlPath raw)).map (fun cs => String.mk cs)).filter
    (fun s => s ≠ "")

/-- Python `str.endswith(suffix)`. -/
def strEndsWith (s suffix : String) : Bool :=
  suffix.data.isSuffixOf s.data

/-- `parse_path` (lines 35-44): exactly three segments, first the fixed
prefix, last one of `offer`/`answer`; the `ValueError` messages are kept. -/
def parse_path (path : String) : Except String (String × String × String) :=
  match pathSegments path with
  | [pre, room_id, resource] =>
    if pre ≠ PREFIX then Except.error "Unknown prefix"
    else if resource ≠ "offer" ∧ resource ≠ "answer" then
      Except.error "Unknown resource"
    else Except.ok (pre, room_id, resource)
  | _ => Except.error "Invalid path"

/-- The two module-level dictionaries (lines 26-27). -/
structure ServerState where
  offers : Dict
  answers : Dict

/-- Initial state: both dictionaries empty. -/
def initState : ServerState := { offers := mapEmpty, answers := mapEmpty }

/-- Body of `_handle` (lines 93-133) after a successful `parse_path`:
the composite key, the store chosen by resource, and the sequential
PUT / GET-offer / DELETE-answer / 405 dispatch. -/
def handleCore (st : ServerState) (method : Method)
    (room_id resource body : String) : Response × ServerState :=
  let key := resource ++ ":" ++ room_id
  if method = Method.PUT then
    if body = "" then
      (writeDetail 400
        (if resource = "offer" then "Offer body is empty"
         else "Answer body is empty") [], st)
    else if resource = "offer" then
      (mkResponse 204 plainCT [] BodyData.empty,
       { st with offers := mapSet st.offers key body })
    else
      (mkResponse 204 plainCT [] BodyData.empty,
       { st with answers := mapSet st.answers key body })
  else if method = Method.GET ∧ resource = "offer" then
    match mapGet st.offers key with
    | none => (writeDetail 404 "Offer not found" [], st)
    | some v => (mkResponse 200 plainCT [] (BodyData.text v), st)
  else if method = Method.DELETE ∧ resource = "answer" then
    let popped := mapPop st.answers key
    match popped.1 with
    | none =>
      (mkResponse 204 plainCT [] BodyData.empty,
       { st with answers := popped.2 })
    | some v =>
      (mkResponse 200 plainCT [] (BodyData.text v),
       { st with answers := popped.2 })
  else
    (writeDetail 405 "Method not allowed"
      [("Allow", if resource = "offer" then "GET, PUT" else "PUT, DELETE")],
     st)

/-- `_handle` (lines 86-133): parse the path, answering not-found with the
`ValueError` message on failure, otherwise run the dispatch. -/
def handle (st : ServerState) (method : Method) (path body : String) :
    Response × ServerState :=
  match parse_path path with
  | Except.error msg => (writeDetail 404 msg [], st)
  | Except.ok (_, room_id, resource) =>
    handleCore st method room_id resource body

/-- `_health` (lines 135-153): the three accepted shapes, else not-found. -/
def health (path : String) : Response :=
  match pathSegments path with
  | [a] =>
    if a = "health" then
      mkResponse 200 jsonCT [] (BodyData.jsonObj [("status", "ok")])
    else writeDetail 404 "Not found" []
  | [a, b] =>
    if a = PREFIX ∧ b = "health" then
      mkResponse 200 jsonCT [] (BodyData.jsonObj [("status", "ok")])
    else writeDetail 404 "Not found" []
  | [a, b, c] =>
    if a = PREFIX ∧ c = "health" then
      mkResponse 200 jsonCT [] (BodyData.jsonObj [("status", "ok"), ("room", b)])
    else writeDetail 404 "Not found" []
  | _ => writeDetail 404 "Not found" []

/-- The verb dispatchers `do_PUT` / `do_GET` / `do_DELETE` / `do_OPTIONS`
(lines 155-168): GET routes `*/health` paths to `_health`; OPTIONS answers
204 with the CORS block and never touches the state. -/
def serve (st : ServerState) (method : Method) (path body : String) :
    Response × ServerState :=
  match method with
  | Method.PUT => handle st Method.PUT path body
  | Method.GET =>
    if strEndsWith path "/health" then (health path, st)
    else handle st Method.GET path body
  | Method.DELETE => handle st Method.DELETE path body
  | Method.OPTIONS => (mkResponse 204 plainCT [] BodyData.empty, st)

end Builtin

namespace Fastapi

/-- `PREFIX = "sig"` (signalling_server.py line 25). -/
def PREFIX : String := "sig"

/-- CORSMiddleware configuration (lines 9-15). -/
def allowOrigins : List String := ["*"]

/-- CORSMiddleware configuration (lines 9-15). -/
def allowCredentials : Bool := true

/-- CORSMiddleware configuration (lines 9-15). -/
def allowMethods : List String := ["GET", "PUT", "DELETE", "OPTIONS"]

/-- CORSMiddleware configuration (lines 9-15). -/
def allowHeaders : List String := ["*"]

/-- The two module-level dictionaries `_offers` / `_answers` (lines 17-18). -/
structure FState where
  offers : Dict
  answers : Dict

/-- Initial state: both dictionaries empty. -/
def finitState : FState := { offers := mapEmpty, answers := mapEmpty }

/-- A handler outcome: a `PlainTextResponse` (Starlette default status 200
unless given explicitly) or a raised `HTTPException` with its detail. -/
inductive FResp where
  | plain (status : Nat) (body : String)
  | httpError (status : Nat) (detail : String)
deriving Repr, DecidableEq

/-- `_key(prefix, room_id)` (lines 21-22). -/
def fkey (pre room_id : String) : String := pre ++ ":" ++ room_id

/-- `put_offer` (lines 33-40): prefix check, empty-body check, store. -/
def put_offer (st : FState) (pre room_id body : String) : FResp × FState :=
  if pre ≠ PREFIX then (FResp.httpError 404 "Unknown prefix", st)
  else if body = "" then (FResp.httpError 400 "Offer body is empty", st)
  else (FResp.plain 200 "",
        { st with offers := mapSet st.offers (fkey pre room_id) body })

/-- `get_offer` (lines 43-49). -/
def get_offer (st : FState) (pre room_id : String) : FResp × FState :=
  if pre ≠ PREFIX then (FResp.httpError 404 "Unknown prefix", st)
  else
    match mapGet st.offers (fkey pre room_id) with
    | none => (FResp.httpError 404 "Offer not found", st)
    | some v => (FResp.plain 200 v, st)

/-- `put_answer` (lines 52-59). -/
def put_answer (st : FState) (pre room_id body : String) : FResp × FState :=
  if pre ≠ PREFIX then (FResp.httpError 404 "Unknown prefix", st)
  else if body = "" then (FResp.httpError 400 "Answer body is empty", st)
  else (FResp.plain 200 "",
        { st with answers := mapSet st.answers (fkey pre room_id) body })

/-- `delete_answer` (lines 62-69): `pop` with default, 204 when absent. -/
def delete_answer (st : FState) (pre room_id : String) : FResp × FState :=
  if pre ≠ PREFIX then (FResp.httpError 404 "Unknown prefix", st)
  else
    let popped := mapPop st.answers (fkey pre room_id)
    match popped.1 with
    | none => (FResp.plain 204 "", { st with answers := popped.2 })
    | some v => (FResp.plain 200 v, { st with answers := popped.2 })

/-- `healthcheck` (lines 72-74): the dictionary returned as JSON. -/
def healthcheck : List (String × String) := [("status", "ok")]

end Fastapi

end Enspurna

namespace Enspurna

/-- Overwriting a key makes it present with the new value. -/
theorem mapGet_set_self (d : Dict) (k v : String) : mapSet d k v k = some v := by
  simp [mapSet]

/-- `pop` returns exactly the current value of the key. -/
theorem mapPop_fst (d : Dict) (k : String) : (mapPop d k).1 = d k := rfl

/-- After `pop`, the key is absent. -/
theorem mapPop_snd_self (d : Dict) (k : String) : (mapPop d k).2 k = none := by
  simp [mapPop]

/-- Popping an absent key leaves the dictionary unchanged. -/
theorem mapPop_snd_of_none (d : Dict) (k : String) (h : d k = none) :
    (mapPop d k).2 = d := by
  funext q
  by_cases hq : q = k
  · simp [mapPop, hq, h]
  · simp [mapPop, hq]

/-- C1: for every room id `r` and non-empty payload `p`, `PUT offer(r,p)`
followed by `GET offer(r)` (no intervening offer PUT) answers 200 with body
exactly `p`; `GET offer(r)` with no stored offer answers 404 — in both the
stdlib and the FastAPI variant. -/
theorem claim_C1 :
    (∀ (st : Builtin.ServerState) (r p : String), p ≠ "" →
      (Builtin.handleCore
        (Builtin.handleCore st Method.PUT r "offer" p).2
        Method.GET r "offer" "").1
        = Builtin.mkResponse 200 Builtin.plainCT [] (BodyData.text p)) ∧
    (∀ (st : Builtin.ServerState) (r : String),
      st.offers ("offer:" ++ r) = none →
      Builtin.handleCore st Method.GET r "offer" ""
        = (Builtin.writeDetail 404 "Offer not found" [], st)) ∧
    (∀ (st : Fastapi.FState) (r p : String), p ≠ "" →
      (Fastapi.get_offer (Fastapi.put_offer st "sig" r p).2 "sig" r).1
        = Fastapi.FResp.plain 200 p) ∧
    (∀ (st : Fastapi.FState) (r : String),
      st.offers ("sig:" ++ r) = none →
      Fastapi.get_offer st "sig" r
        = (Fastapi.FResp.httpError 404 "Offer not found", st)) := by
  refine ⟨?_, ?_, ?_, ?_⟩
  · intro st r p hp
    simp [Builtin.handleCore, mapGet, mapSet, hp]
  · intro st r h
    simp [Builtin.handleCore, mapGet, h]
  · intro st r p hp
    simp [Fastapi.put_offer, Fastapi.get_offer, Fastapi.fkey, Fastapi.PREFIX,
      mapGet, mapSet, hp]
  · intro st r h
    simp [Fastapi.get_offer, Fastapi.fkey, Fastapi.PREFIX, mapGet, h]

/-- C2: `PUT answer(r,p1)`, `PUT answer(r,p2)`, `DELETE answer(r)` returns
exactly `p2` (last-write-wins), and an immediately following second
`DELETE answer(r)` returns an empty success response because the take
consumed the entry — in both variants. -/
theorem claim_C2 :
    (∀ (st : Builtin.ServerState) (r p1 p2 : String), p1 ≠ "" → p2 ≠ "" →
      (Builtin.handleCore
        (Builtin.handleCore
          (Builtin.handleCore st Method.PUT r "answer" p1).2
          Method.PUT r "answer" p2).2
        Method.DELETE r "answer" "").1
        = Builtin.mkResponse 200 Builtin.plainCT [] (BodyData.text p2) ∧
      (Builtin.handleCore
        (Builtin.handleCore
          (Builtin.handleCore
            (Builtin.handleCore st Method.PUT r "answer" p1).2
            Method.PUT r "answer" p2).2
          Method.DELETE r "answer" "").2
        Method.DELETE r "answer" "").1
        = Builtin.mkResponse 204 Builtin.plainCT [] BodyData.empty) ∧
    (∀ (st : Fastapi.FState) (r p1 p2 : String), p1 ≠ "" → p2 ≠ "" →
      (Fastapi.delete_answer
        (Fastapi.put_answer
          (Fastapi.put_answer st "sig" r p1).2 "sig" r p2).2 "sig" r).1
        = Fastapi.FResp.plain 200 p2 ∧
      (Fastapi.delete_answer
        (Fastapi.delete_answer
          (Fastapi.put_answer
            (Fastapi.put_answer st "sig" r p1).2 "sig" r p2).2 "sig" r).2
        "sig" r).1
        = Fastapi.FResp.plain 204 "") := by
  constructor
  · intro st r p1 p2 h1 h2
    constructor
    · simp [Builtin.handleCore, mapSet, mapPop, h1, h2]
    · simp [Builtin.handleCore, mapSet, mapPop, h1, h2]
  · intro st r p1 p2 h1 h2
    constructor
    · simp [Fastapi.put_answer, Fastapi.delete_answer, Fastapi.fkey,
        Fastapi.PREFIX, mapSet, mapPop, h1, h2]
    · simp [Fastapi.put_answer, Fastapi.delete_answer, Fastapi.fkey,
        Fastapi.PREFIX, mapSet, mapPop, h1, h2]

/-- C3: failing requests are atomic for the store: an empty-body PUT
(offer or answer) is rejected with 400 and returns the state unchanged, and
`GET offer` / `DELETE answer` on an absent key also leave the state exactly
as it was — in both variants. -/
theorem claim_C3 :
    (∀ (st : Builtin.ServerState) (r : String),
      Builtin.handleCore st Method.PUT r "offer" ""
        = (Builtin.writeDetail 400 "Offer body is empty" [], st)) ∧
    (∀ (st : Builtin.ServerState) (r : String),
      Builtin.handleCore st Method.PUT r "answer" ""
        = (Builtin.writeDetail 400 "Answer body is empty" [], st)) ∧
    (∀ (st : Builtin.ServerState) (r b : String),
      st.offers ("offer:" ++ r) = none →
      Builtin.handleCore st Method.GET r "offer" b
        = (Builtin.writeDetail 404 "Offer not found" [], st)) ∧
    (∀ (st : Builtin.ServerState) (r b : String),
      st.answers ("answer:" ++ r) = none →
      Builtin.handleCore st Method.DELETE r "answer" b
        = (Builtin.mkResponse 204 Builtin.plainCT [] BodyData.empty, st)) ∧
    (∀ (st : Fastapi.FState) (r : String),
      Fastapi.put_offer st "sig" r ""
        = (Fastapi.FResp.httpError 400 "Offer body is empty", st)) ∧
    (∀ (st : Fastapi.FState) (r : String),
      Fastapi.put_answer st "sig" r ""
        = (Fastapi.FResp.httpError 400 "Answer body is empty", st)) ∧
    (∀ (st : Fastapi.FState) (r : String),
      st.offers ("sig:" ++ r) = none →
      Fastapi.get_offer st "sig" r
        = (Fastapi.FResp.httpError 404 "Offer not found", st)) ∧
    (∀ (st : Fastapi.FState) (r : String),
      st.answers ("sig:" ++ r) = none →
      Fastapi.delete_answer st "sig" r
        = (Fastapi.FResp.plain 204 "", st)) := by
  refine ⟨?_, ?_, ?_, ?_, ?_, ?_, ?_, ?_⟩
  · intro st r
    simp [Builtin.handleCore]
  · intro st r
    simp [Builtin.handleCore]
  · intro st r b h
    simp [Builtin.handleCore, mapGet, h]
  · intro st r b h
    have hpop : (mapPop st.answers ("answer:" ++ r)).2 = st.answers :=
      mapPop_snd_of_none _ _ h
    simp [Builtin.handleCore, mapPop_fst, h, hpop]
  · intro st r
    simp [Fastapi.put_offer, Fastapi.PREFIX]
  · intro st r
    simp [Fastapi.put_answer, Fastapi.PREFIX]
  · intro st r h
    simp [Fastapi.get_offer, Fastapi.fkey, Fastapi.PREFIX, mapGet, h]
  · intro st r h
    have hpop : (mapPop st.answers ("sig:" ++ r)).2 = st.answers :=
      mapPop_snd_of_none _ _ h
    simp [Fastapi.delete_answer, Fastapi.fkey, Fastapi.PREFIX,
      mapPop_fst, h, hpop]

/-- C5: `DELETE answer(r)` never fails: with a stored answer it returns
200 and the stored body (removing the entry); with none it returns 204 with
an empty body and the state unchanged — in both variants. -/
theorem claim_C5 :
    (∀ (st : Builtin.ServerState) (r b : String),
      st.answers ("answer:" ++ r) = some b →
      Builtin.handleCore st Method.DELETE r "answer" ""
        = (Builtin.mkResponse 200 Builtin.plainCT [] (BodyData.text b),
           { st with answers := (mapPop st.answers ("answer:" ++ r)).2 })) ∧
    (∀ (st : Builtin.ServerState) (r : String),
      st.answers ("answer:" ++ r) = none →
      Builtin.handleCore st Method.DELETE r "answer" ""
        = (Builtin.mkResponse 204 Builtin.plainCT [] BodyData.empty, st)) ∧
    (∀ (st : Fastapi.FState) (r b : String),
      st.answers ("sig:" ++ r) = some b →
      Fastapi.delete_answer st "sig" r
        = (Fastapi.FResp.plain 200 b,
           { st with answers := (mapPop st.answers ("sig:" ++ r)).2 })) ∧
    (∀ (st : Fastapi.FState) (r : String),
      st.answers ("sig:" ++ r) = none →
      Fastapi.delete_answer st "sig" r
        = (Fastapi.FResp.plain 204 "", st)) := by
  refine ⟨?_, ?_, ?_, ?_⟩
  · intro st r b h
    simp [Builtin.handleCore, mapPop_fst, h, mapPop]
  · intro st r h
    have hpop : (mapPop st.answers ("answer:" ++ r)).2 = st.answers :=
      mapPop_snd_of_none _ _ h
    simp [Builtin.handleCore, mapPop_fst, h, hpop]
  · intro st r b h
    simp [Fastapi.delete_answer, Fastapi.fkey, Fastapi.PREFIX,
      mapPop_fst, h, mapPop]
  · intro st r h
    have hpop : (mapPop st.answers ("sig:" ++ r)).2 = st.answers :=
      mapPop_snd_of_none _ _ h
    simp [Fastapi.delete_answer, Fastapi.fkey, Fastapi.PREFIX,
      mapPop_fst, h, hpop]

/-- C7: an OPTIONS request on any path is answered 204 with an empty body
and the permissive CORS header block, and the offers and answers mappings
after the request equal the mappings before it; the FastAPI CORS
configuration also allows OPTIONS. -/
theorem claim_C7 :
    (∀ (st : Builtin.ServerState) (path body : String),
      Builtin.serve st Method.OPTIONS path body
        = (Builtin.mkResponse 204 Builtin.plainCT [] BodyData.empty, st)) ∧
    (Builtin.mkResponse 204 Builtin.plainCT [] BodyData.empty).headers
      = Builtin.CORS_HEADERS ∧
    "OPTIONS" ∈ Fastapi.allowMethods := by
  refine ⟨?_, ?_, ?_⟩
  · intro st path body
    rfl
  · rfl
  · simp [Fastapi.allowMethods]

/-- C8: a valid resource path hit with an unsupported verb (GET on answer,
DELETE on offer) answers 405 with an Allow header listing exactly that
resource's supported verbs, without touching the store. -/
theorem claim_C8 :
    ∀ (st : Builtin.ServerState) (r b : String),
      Builtin.handleCore st Method.GET r "answer" b
        = (Builtin.writeDetail 405 "Method not allowed"
             [("Allow", "PUT, DELETE")], st) ∧
      Builtin.handleCore st Method.DELETE r "offer" b
        = (Builtin.writeDetail 405 "Method not allowed"
             [("Allow", "GET, PUT")], st) := by
  intro st r b
  constructor
  · simp [Builtin.handleCore]
  · simp [Builtin.handleCore]

/-- C9: offers and answers live in disjoint mappings: answer operations
never change the offers mapping or the outcome of a subsequent
`GET offer(r)`, and an offer PUT never changes the answers mapping or the
outcome of a subsequent `DELETE answer(r)` — in both variants. -/
theorem claim_C9 :
    ∀ (st : Builtin.ServerState) (r p b : String),
      (Builtin.handleCore st Method.PUT r "answer" p).2.offers = st.offers ∧
      (Builtin.handleCore st Method.DELETE r "answer" b).2.offers
        = st.offers ∧
      (Builtin.handleCore st Method.PUT r "offer" p).2.answers
        = st.answers ∧
      (Builtin.handleCore
        (Builtin.handleCore st Method.PUT r "answer" p).2
        Method.GET r "offer" "").1
        = (Builtin.handleCore st Method.GET r "offer" "").1 ∧
      (Builtin.handleCore
        (Builtin.handleCore st Method.DELETE r "answer" "").2
        Method.GET r "offer" "").1
        = (Builtin.handleCore st Method.GET r "offer" "").1 ∧
      (Builtin.handleCore
        (Builtin.handleCore st Method.PUT r "offer" p).2
        Method.DELETE r "answer" "").1
        = (Builtin.handleCore st Method.DELETE r "answer" "").1 ∧
      (∀ (fst : Fastapi.FState),
        (Fastapi.put_answer fst "sig" r p).2.offers = fst.offers ∧
        (Fastapi.delete_answer fst "sig" r).2.offers = fst.offers ∧
        (Fastapi.put_offer fst "sig" r p).2.answers = fst.answers ∧
        (Fastapi.get_offer (Fastapi.put_answer fst "sig" r p).2 "sig" r).1
          = (Fastapi.get_offer fst "sig" r).1) := by
  intro st r p b
  refine ⟨?_, ?_, ?_, ?_, ?_, ?_, ?_⟩
  · by_cases hp : p = "" <;> simp [Builtin.handleCore, hp]
  · cases h1 : st.answers ("answer:" ++ r) <;>
      simp [Builtin.handleCore, mapPop, h1]
  · by_cases hp : p = "" <;> simp [Builtin.handleCore, hp]
  · by_cases hp : p = ""
    · simp [Builtin.handleCore, hp]
    · cases h2 : st.offers ("offer:" ++ r) <;>
        simp [Builtin.handleCore, mapGet, mapSet, hp, h2]
  · cases h1 : st.answers ("answer:" ++ r) <;>
      cases h2 : st.offers ("offer:" ++ r) <;>
      simp [Builtin.handleCore, mapGet, mapPop, h1, h2]
  · by_cases hp : p = ""
    · simp [Builtin.handleCore, hp]
    · cases h1 : st.answers ("answer:" ++ r) <;>
        simp [Builtin.handleCore, mapPop, mapSet, hp, h1]
  · intro fst
    refine ⟨?_, ?_, ?_, ?_⟩
    · by_cases hp : p = "" <;>
        simp [Fastapi.put_answer, Fastapi.fkey, Fastapi.PREFIX, hp]
    · cases h1 : fst.answers ("sig:" ++ r) <;>
        simp [Fastapi.delete_answer, Fastapi.fkey, Fastapi.PREFIX, mapPop, h1]
    · by_cases hp : p = "" <;>
        simp [Fastapi.put_offer, Fastapi.fkey, Fastapi.PREFIX, hp]
    · by_cases hp : p = ""
      · simp [Fastapi.put_answer, Fastapi.fkey, Fastapi.PREFIX, hp]
      · cases h2 : fst.offers ("sig:" ++ r) <;>
          simp [Fastapi.put_answer, Fastapi.get_offer, Fastapi.fkey,
            Fastapi.PREFIX, mapGet, mapSet, hp, h2]

/-- Unfolding lemma for `beforeChar` on a cons cell. -/
theorem beforeChar_cons (c a : Char) (l : List Char) :
    Builtin.beforeChar c (a :: l)
      = if a = c then [] else a :: Builtin.beforeChar c l := by
  by_cases hac : a = c <;> simp [Builtin.beforeChar, hac]

/-- `beforeChar` is the identity when the character never occurs. -/
theorem beforeChar_all (c : Char) (l : List Char) (h : ∀ x ∈ l, x ≠ c) :
    Builtin.beforeChar c l = l := by
  induction l with
  | nil => rfl
  | cons a t ih =>
    have ha : a ≠ c := h a (by simp)
    rw [beforeChar_cons, if_neg ha, ih (fun x hx => h x (by simp [hx]))]

/-- `beforeChar` passes over a block free of the cut character. -/
theorem beforeChar_append_all (c : Char) (l1 l2 : List Char)
    (h : ∀ x ∈ l1, x ≠ c) :
    Builtin.beforeChar c (l1 ++ l2) = l1 ++ Builtin.beforeChar c l2 := by
  induction l1 with
  | nil => rfl
  | cons a t ih =>
    have ha : a ≠ c := h a (by simp)
    rw [List.cons_append, beforeChar_cons, if_neg ha,
      ih (fun x hx => h x (by simp [hx])), List.cons_append]

/-- Appending a query string to a clean path does not change its
segments: `_path_segments` cuts at the first `?`. -/
theorem pathSegments_strip_query (p q : String)
    (h : ∀ ch ∈ p.data, ch ≠ '#' ∧ ch ≠ '?') :
    Builtin.pathSegments (p ++ "?" ++ q) = Builtin.pathSegments p := by
  have h1 : ∀ x ∈ p.data, x ≠ '#' := fun x hx => (h x hx).1
  have h2 : ∀ x ∈ p.data, x ≠ '?' := fun x hx => (h x hx).2
  have hdata : (p ++ "?" ++ q).data = p.data ++ '?' :: q.data := by
    simp [String.data_append]
  have hu1 : Builtin.urlPath (p ++ "?" ++ q) = p.data := by
    unfold Builtin.urlPath
    rw [hdata, beforeChar_append_all _ _ _ h1, beforeChar_cons,
      if_neg (by decide), beforeChar_append_all _ _ _ h2, beforeChar_cons,
      if_pos rfl, List.append_nil]
  have hu2 : Builtin.urlPath p = p.data := by
    unfold Builtin.urlPath
    rw [beforeChar_all _ _ h1, beforeChar_all _ _ h2]
  unfold Builtin.pathSegments
  rw [hu1, hu2]

/-- A normalized path without exactly three segments fails `parse_path`
with the `Invalid path` error. -/
theorem parse_path_invalid (path : String)
    (h : (Builtin.pathSegments path).length ≠ 3) :
    Builtin.parse_path path = Except.error "Invalid path" := by
  rcases hp : Builtin.pathSegments path with _ | ⟨a, _ | ⟨b, _ | ⟨c, _ | ⟨d, t⟩⟩⟩⟩
  · simp [Builtin.parse_path, hp]
  · simp [Builtin.parse_path, hp]
  · simp [Builtin.parse_path, hp]
  · exact absurd (by rw [hp]; rfl) h
  · simp [Builtin.parse_path, hp]

/-- C10: stdlib routing normalizes the raw path — the query string is
stripped and empty segments are discarded — and every non-health request
whose normalized path does not have exactly three segments is rejected 404
(`Invalid path`) with the store untouched. -/
theorem claim_C10 :
    (∀ (p q : String), (∀ ch ∈ p.data, ch ≠ '#' ∧ ch ≠ '?') →
      Builtin.pathSegments (p ++ "?" ++ q) = Builtin.pathSegments p) ∧
    (∀ path : String, "" ∉ Builtin.pathSegments path) ∧
    (∀ (st : Builtin.ServerState) (m : Method) (path body : String),
      m ≠ Method.OPTIONS →
      ¬(m = Method.GET ∧ Builtin.strEndsWith path "/health" = true) →
      (Builtin.pathSegments path).length ≠ 3 →
      Builtin.serve st m path body
        = (Builtin.writeDetail 404 "Invalid path" [], st)) := by
  refine ⟨pathSegments_strip_query, ?_, ?_⟩
  · intro path hmem
    unfold Builtin.pathSegments at hmem
    have h2 := (List.mem_filter.mp hmem).2
    simp at h2
  · intro st m path body hm hh hlen
    have hdp := parse_path_invalid path hlen
    cases m with
    | OPTIONS => exact absurd rfl hm
    | PUT => simp [Builtin.serve, Builtin.handle, hdp]
    | DELETE => simp [Builtin.serve, Builtin.handle, hdp]
    | GET =>
      have hend : Builtin.strEndsWith path "/health" = false := by
        cases hb : Builtin.strEndsWith path "/health"
        · rfl
        · exact absurd ⟨rfl, hb⟩ hh
      simp [Builtin.serve, hend, Builtin.handle, hdp]

/-- C4: a request whose first path segment differs from the literal `sig`
answers 404 for every verb and body, with the store untouched (stdlib
router), and every FastAPI handler rejects an unknown prefix with 404
before reading the body or the store. -/
theorem claim_C4 :
    (∀ (st : Builtin.ServerState) (m : Method)
        (path body pre rid res : String),
      m ≠ Method.OPTIONS →
      Builtin.pathSegments path = [pre, rid, res] →
      pre ≠ "sig" →
      (Builtin.serve st m path body).1.status = 404 ∧
      (Builtin.serve st m path body).2 = st) ∧
    (∀ (st : Fastapi.FState) (pre r p : String), pre ≠ "sig" →
      Fastapi.put_offer st pre r p
        = (Fastapi.FResp.httpError 404 "Unknown prefix", st) ∧
      Fastapi.get_offer st pre r
        = (Fastapi.FResp.httpError 404 "Unknown prefix", st) ∧
      Fastapi.put_answer st pre r p
        = (Fastapi.FResp.httpError 404 "Unknown prefix", st) ∧
      Fastapi.delete_answer st pre r
        = (Fastapi.FResp.httpError 404 "Unknown prefix", st)) := by
  constructor
  · intro st m path body pre rid res hm hseg hpre
    have hpp : Builtin.parse_path path = Except.error "Unknown prefix" := by
      simp [Builtin.parse_path, hseg, Builtin.PREFIX, hpre]
    cases m with
    | OPTIONS => exact absurd rfl hm
    | PUT =>
      constructor <;>
        simp [Builtin.serve, Builtin.handle, hpp, Builtin.writeDetail,
          Builtin.mkResponse]
    | DELETE =>
      constructor <;>
        simp [Builtin.serve, Builtin.handle, hpp, Builtin.writeDetail,
          Builtin.mkResponse]
    | GET =>
      cases hb : Builtin.strEndsWith path "/health"
      · constructor <;>
          simp [Builtin.serve, hb, Builtin.handle, hpp, Builtin.writeDetail,
            Builtin.mkResponse]
      · constructor <;>
          simp [Builtin.serve, hb, Builtin.health, hseg, Builtin.PREFIX,
            hpre, Builtin.writeDetail, Builtin.mkResponse]
  · intro st pre r p hpre
    refine ⟨?_, ?_, ?_, ?_⟩ <;>
      simp [Fastapi.put_offer, Fastapi.get_offer, Fastapi.put_answer,
        Fastapi.delete_answer, Fastapi.PREFIX, hpre]

/-- C6: `GET /sig/{r}/health` answers 200 with status ok and echoes
`room = r`; `GET /health` answers ok with no room field; both leave the
store untouched; the FastAPI healthcheck also carries no room field. -/
theorem claim_C6 :
    (∀ (st : Builtin.ServerState) (path r : String),
      Builtin.pathSegments path = ["sig", r, "health"] →
      Builtin.strEndsWith path "/health" = true →
      Builtin.serve st Method.GET path ""
        = (Builtin.mkResponse 200 Builtin.jsonCT []
            (BodyData.jsonObj [("status", "ok"), ("room", r)]), st)) ∧
    (∀ st : Builtin.ServerState,
      Builtin.serve st Method.GET "/health" ""
        = (Builtin.mkResponse 200 Builtin.jsonCT []
            (BodyData.jsonObj [("status", "ok")]), st)) ∧
    Fastapi.healthcheck = [("status", "ok")] := by
  refine ⟨?_, ?_, rfl⟩
  · intro st path r hseg hend
    simp [Builtin.serve, hend, Builtin.health, hseg, Builtin.PREFIX]
  · intro st
    rfl

/-- Witness for C1 at room `room1`, payload `p1`, from the empty store. -/
theorem claim_C1_witness :
    (("p1" : String) ≠ "" ∧
      (Builtin.handleCore
        (Builtin.handleCore Builtin.initState Method.PUT "room1" "offer"
          "p1").2
        Method.GET "room1" "offer" "").1
        = Builtin.mkResponse 200 Builtin.plainCT [] (BodyData.text "p1")) ∧
    (Builtin.initState.offers ("offer:" ++ "room1") = none ∧
      Builtin.handleCore Builtin.initState Method.GET "room1" "offer" ""
        = (Builtin.writeDetail 404 "Offer not found" [],
           Builtin.initState)) ∧
    (("p1" : String) ≠ "" ∧
      (Fastapi.get_offer
        (Fastapi.put_offer Fastapi.finitState "sig" "room1" "p1").2
        "sig" "room1").1 = Fastapi.FResp.plain 200 "p1") ∧
    (Fastapi.finitState.offers ("sig:" ++ "room1") = none ∧
      Fastapi.get_offer Fastapi.finitState "sig" "room1"
        = (Fastapi.FResp.httpError 404 "Offer not found",
           Fastapi.finitState)) :=
  ⟨⟨by decide, claim_C1.1 Builtin.initState "room1" "p1" (by decide)⟩,
   ⟨rfl, claim_C1.2.1 Builtin.initState "room1" rfl⟩,
   ⟨by decide, claim_C1.2.2.1 Fastapi.finitState "room1" "p1" (by decide)⟩,
   ⟨rfl, claim_C1.2.2.2 Fastapi.finitState "room1" rfl⟩⟩

/-- Witness for C2 at room `room1`, payloads `a1`, `a2`. -/
theorem claim_C2_witness :
    ("a1" : String) ≠ "" ∧ ("a2" : String) ≠ "" ∧
    ((Builtin.handleCore
        (Builtin.handleCore
          (Builtin.handleCore Builtin.initState Method.PUT "room1" "answer"
            "a1").2
          Method.PUT "room1" "answer" "a2").2
        Method.DELETE "room1" "answer" "").1
        = Builtin.mkResponse 200 Builtin.plainCT [] (BodyData.text "a2") ∧
      (Builtin.handleCore
        (Builtin.handleCore
          (Builtin.handleCore
            (Builtin.handleCore Builtin.initState Method.PUT "room1" "answer"
              "a1").2
            Method.PUT "room1" "answer" "a2").2
          Method.DELETE "room1" "answer" "").2
        Method.DELETE "room1" "answer" "").1
        = Builtin.mkResponse 204 Builtin.plainCT [] BodyData.empty) ∧
    ((Fastapi.delete_answer
        (Fastapi.put_answer
          (Fastapi.put_answer Fastapi.finitState "sig" "room1" "a1").2
          "sig" "room1" "a2").2 "sig" "room1").1
        = Fastapi.FResp.plain 200 "a2" ∧
      (Fastapi.delete_answer
        (Fastapi.delete_answer
          (Fastapi.put_answer
            (Fastapi.put_answer Fastapi.finitState "sig" "room1" "a1").2
            "sig" "room1" "a2").2 "sig" "room1").2
        "sig" "room1").1
        = Fastapi.FResp.plain 204 "") :=
  ⟨by decide, by decide,
   claim_C2.1 Builtin.initState "room1" "a1" "a2" (by decide) (by decide),
   claim_C2.2 Fastapi.finitState "room1" "a1" "a2" (by decide) (by decide)⟩

/-- Witness for C3 on the empty store at room `room1`. -/
theorem claim_C3_witness :
    (Builtin.initState.offers ("offer:" ++ "room1") = none ∧
      Builtin.handleCore Builtin.initState Method.GET "room1" "offer" "b"
        = (Builtin.writeDetail 404 "Offer not found" [],
           Builtin.initState)) ∧
    (Builtin.initState.answers ("answer:" ++ "room1") = none ∧
      Builtin.handleCore Builtin.initState Method.DELETE "room1" "answer" "b"
        = (Builtin.mkResponse 204 Builtin.plainCT [] BodyData.empty,
           Builtin.initState)) ∧
    (Fastapi.finitState.offers ("sig:" ++ "room1") = none ∧
      Fastapi.get_offer Fastapi.finitState "sig" "room1"
        = (Fastapi.FResp.httpError 404 "Offer not found",
           Fastapi.finitState)) ∧
    (Fastapi.finitState.answers ("sig:" ++ "room1") = none ∧
      Fastapi.delete_answer Fastapi.finitState "sig" "room1"
        = (Fastapi.FResp.plain 204 "", Fastapi.finitState)) :=
  ⟨⟨rfl, claim_C3.2.2.1 Builtin.initState "room1" "b" rfl⟩,
   ⟨rfl, claim_C3.2.2.2.1 Builtin.initState "room1" "b" rfl⟩,
   ⟨rfl, claim_C3.2.2.2.2.2.2.1 Fastapi.finitState "room1" rfl⟩,
   ⟨rfl, claim_C3.2.2.2.2.2.2.2 Fastapi.finitState "room1" rfl⟩⟩

/-- Witness for C4 at the concrete path `/other/room1/offer`. -/
theorem claim_C4_witness :
    (Method.PUT ≠ Method.OPTIONS ∧
      Builtin.pathSegments "/other/room1/offer"
        = ["other", "room1", "offer"] ∧
      ("other" : String) ≠ "sig" ∧
      (Builtin.serve Builtin.initState Method.PUT "/other/room1/offer"
        "x").1.status = 404 ∧
      (Builtin.serve Builtin.initState Method.PUT "/other/room1/offer"
        "x").2 = Builtin.initState) ∧
    (("other" : String) ≠ "sig" ∧
      Fastapi.put_offer Fastapi.finitState "other" "room1" "x"
        = (Fastapi.FResp.httpError 404 "Unknown prefix",
           Fastapi.finitState) ∧
      Fastapi.get_offer Fastapi.finitState "other" "room1"
        = (Fastapi.FResp.httpError 404 "Unknown prefix",
           Fastapi.finitState) ∧
      Fastapi.put_answer Fastapi.finitState "other" "room1" "x"
        = (Fastapi.FResp.httpError 404 "Unknown prefix",
           Fastapi.finitState) ∧
      Fastapi.delete_answer Fastapi.finitState "other" "room1"
        = (Fastapi.FResp.httpError 404 "Unknown prefix",
           Fastapi.finitState)) :=
  ⟨⟨by decide, by decide, by decide,
    (claim_C4.1 Builtin.initState Method.PUT "/other/room1/offer" "x"
      "other" "room1" "offer" (by decide) (by decide) (by decide)).1,
    (claim_C4.1 Builtin.initState Method.PUT "/other/room1/offer" "x"
      "other" "room1" "offer" (by decide) (by decide) (by decide)).2⟩,
   ⟨by decide,
    claim_C4.2 Fastapi.finitState "other" "room1" "x" (by decide)⟩⟩

/-- Witness for C5 with and without a stored answer for `room1`. -/
theorem claim_C5_witness :
    (({ offers := mapEmpty,
        answers := mapSet mapEmpty "answer:room1" "a1" } :
          Builtin.ServerState).answers ("answer:" ++ "room1") = some "a1" ∧
      Builtin.handleCore
        { offers := mapEmpty,
          answers := mapSet mapEmpty "answer:room1" "a1" }
        Method.DELETE "room1" "answer" ""
        = (Builtin.mkResponse 200 Builtin.plainCT [] (BodyData.text "a1"),
           { offers := mapEmpty,
             answers :=
               (mapPop (mapSet mapEmpty "answer:room1" "a1")
                 ("answer:" ++ "room1")).2 })) ∧
    (Builtin.initState.answers ("answer:" ++ "room1") = none ∧
      Builtin.handleCore Builtin.initState Method.DELETE "room1" "answer" ""
        = (Builtin.mkResponse 204 Builtin.plainCT [] BodyData.empty,
           Builtin.initState)) ∧
    (({ offers := mapEmpty,
        answers := mapSet mapEmpty "sig:room1" "a1" } :
          Fastapi.FState).answers ("sig:" ++ "room1") = some "a1" ∧
      Fastapi.delete_answer
        { offers := mapEmpty, answers := mapSet mapEmpty "sig:room1" "a1" }
        "sig" "room1"
        = (Fastapi.FResp.plain 200 "a1",
           { offers := mapEmpty,
             answers :=
               (mapPop (mapSet mapEmpty "sig:room1" "a1")
                 ("sig:" ++ "room1")).2 })) ∧
    (Fastapi.finitState.answers ("sig:" ++ "room1") = none ∧
      Fastapi.delete_answer Fastapi.finitState "sig" "room1"
        = (Fastapi.FResp.plain 204 "", Fastapi.finitState)) :=
  ⟨⟨rfl, claim_C5.1
      { offers := mapEmpty, answers := mapSet mapEmpty "answer:room1" "a1" }
      "room1" "a1" rfl⟩,
   ⟨rfl, claim_C5.2.1 Builtin.initState "room1" rfl⟩,
   ⟨rfl, claim_C5.2.2.1
      { offers := mapEmpty, answers := mapSet mapEmpty "sig:room1" "a1" }
      "room1" "a1" rfl⟩,
   ⟨rfl, claim_C5.2.2.2 Fastapi.finitState "room1" rfl⟩⟩

/-- Witness for C6 at the concrete paths `/sig/room1/health` and
`/health`. -/
theorem claim_C6_witness :
    (Builtin.pathSegments "/sig/room1/health"
        = ["sig", "room1", "health"] ∧
      Builtin.strEndsWith "/sig/room1/health" "/health" = true ∧
      Builtin.serve Builtin.initState Method.GET "/sig/room1/health" ""
        = (Builtin.mkResponse 200 Builtin.jsonCT []
            (BodyData.jsonObj [("status", "ok"), ("room", "room1")]),
           Builtin.initState)) ∧
    Builtin.serve Builtin.initState Method.GET "/health" ""
      = (Builtin.mkResponse 200 Builtin.jsonCT []
          (BodyData.jsonObj [("status", "ok")]), Builtin.initState) :=
  ⟨⟨by decide, by decide,
    claim_C6.1 Builtin.initState "/sig/room1/health" "room1"
      (by decide) (by decide)⟩,
   claim_C6.2.1 Builtin.initState⟩

/-- Witness for C10: query stripping on `/sig/r1/offer`, the collapsed
`/sig//offer`, and rejection of the four-segment `/sig/r1/offer/extra`. -/
theorem claim_C10_witness :
    ((∀ ch ∈ ("/sig/r1/offer" : String).data, ch ≠ '#' ∧ ch ≠ '?') ∧
      Builtin.pathSegments ("/sig/r1/offer" ++ "?" ++ "a=1")
        = Builtin.pathSegments "/sig/r1/offer") ∧
    "" ∉ Builtin.pathSegments "/sig//offer" ∧
    (Method.PUT ≠ Method.OPTIONS ∧
      ¬(Method.PUT = Method.GET ∧
        Builtin.strEndsWith "/sig/r1/offer/extra" "/health" = true) ∧
      (Builtin.pathSegments "/sig/r1/offer/extra").length ≠ 3 ∧
      Builtin.serve Builtin.initState Method.PUT "/sig/r1/offer/extra" "x"
        = (Builtin.writeDetail 404 "Invalid path" [], Builtin.initState)) :=
  ⟨⟨by decide, claim_C10.1 "/sig/r1/offer" "a=1" (by decide)⟩,
   claim_C10.2.1 "/sig//offer",
   ⟨by decide, by decide, by decide,
    claim_C10.2.2 Builtin.initState Method.PUT "/sig/r1/offer/extra" "x"
      (by decide) (by decide) (by decide)⟩⟩

end Enspurna
